import Mathlib

/-!
Verification of the hackathon scoring tool backend (TypeScript sources under
the backend services and routes). The definitions below are a shallow
embedding of the scoring service, the Gemini-vision extraction service, the
TestResult mongoose model with its pre-save hook, and the test routes.
External AI calls are modelled as explicit outcome parameters (an oracle
argument): the embedding captures everything the orchestrator does with the
call's result, including the error paths. JavaScript numbers are modelled as
rationals, JavaScript's stable Array.prototype.sort as a stable insertion
sort, and JavaScript's insertion-ordered Map as an association list.
-/

/-! ## JavaScript string helpers -/

/-- Whitespace as matched by JavaScript's trim and the regex class backslash-s
(ASCII part). -/
def jsSpace (c : Char) : Bool :=
  c = ' ' || c = '\t' || c = '\n' || c = '\r' || c = '\x0b' || c = '\x0c'

/-- JavaScript String.prototype.trim. -/
def jsTrim (s : String) : String :=
  String.mk (((s.toList.dropWhile jsSpace).reverse.dropWhile jsSpace).reverse)

/-- Split a character list at every occurrence of the separator, like
JavaScript String.prototype.split with a single-character separator. -/
def splitCharsAux (sep : Char) : List Char → List Char → List (List Char)
  | [], acc => [acc.reverse]
  | c :: cs, acc =>
      if c = sep then acc.reverse :: splitCharsAux sep cs []
      else splitCharsAux sep cs (c :: acc)

/-- JavaScript String.prototype.split with a one-character separator. -/
def splitOnChar (sep : Char) (s : String) : List String :=
  (splitCharsAux sep s.toList []).map String.mk

/-- JavaScript truthiness fallback for strings: s or default. -/
def jsStrOr (s d : String) : String :=
  if s = "" then d else s

/-- JavaScript truthiness fallback for numbers: x or default. -/
def jsNumOr (x d : ℚ) : ℚ :=
  if x = 0 then d else x

/-- Math.round(x * 100) / 100, rounding to the nearest hundredth
(JavaScript Math.round is floor of x + 1/2). -/
def round2 (x : ℚ) : ℚ :=
  ((round (x * 100) : ℤ) : ℚ) / 100

/-! ## parseCriteriaString (scoring.service.ts) -/

/-- Removes a leading numbered-list marker, the regex digits then a dot or a
closing parenthesis then whitespace, as in the replace call of
parseCriteriaString. -/
def stripNumberMarker (s : String) : String :=
  let cs := s.toList
  match cs.dropWhile Char.isDigit with
  | [] => s
  | c :: rest =>
      if cs.takeWhile Char.isDigit ≠ [] ∧ (c = '.' ∨ c = ')') then
        String.mk (rest.dropWhile jsSpace)
      else s

/-- Removes a leading bullet marker (dash, star or bullet dot followed by
whitespace), as in the second replace call of parseCriteriaString. -/
def stripBulletMarker (s : String) : String :=
  match s.toList with
  | [] => s
  | c :: rest =>
      if c = '-' ∨ c = '*' ∨ c = '•' then String.mk (rest.dropWhile jsSpace)
      else s

/-- parseCriteriaString from scoring.service.ts: split the free-text criteria
on newlines (falling back to commas when that yields a single item), strip
list markers, trim, and drop empty items. -/
def parseCriteriaString (criteriaStr : String) : List String :=
  if jsTrim criteriaStr = "" then []
  else
    let criteria := ((splitOnChar '\n' criteriaStr).map jsTrim).filter
      (fun c => 0 < c.length)
    let criteria :=
      if criteria.length = 1 then
        ((splitOnChar ',' criteriaStr).map jsTrim).filter (fun c => 0 < c.length)
      else criteria
    (criteria.map (fun c => jsTrim (stripBulletMarker (stripNumberMarker c)))).filter
      (fun c => 0 < c.length)

/-! ## Data model -/

/-- IQuestion from the scoring-schema model. -/
structure IQuestion where
  questionNumber : Int
  questionText : String
  maxPoints : ℚ
  evaluationCriteria : String
  sampleAnswer : Option String
deriving DecidableEq

/-- RubricGuidelines from scoring.service.ts. -/
structure RubricGuidelines where
  fullCredit : String
  partialCredit : String
  noCredit : String
deriving DecidableEq

/-- CriterionScoreResult from scoring.service.ts (also the shape of
ICriterionScore in the model). -/
structure CriterionScoreResult where
  criterionText : String
  points : ℚ
  maxPoints : ℚ
  feedback : Option String
deriving DecidableEq

/-- ScoringResult from scoring.service.ts. The confidence label is kept as a
string, as the parsed JSON is not validated against the union type. -/
structure ScoringResult where
  questionNumber : Int
  points : ℚ
  maxPoints : ℚ
  feedback : String
  reasoning : String
  confidence : String
  flagForReview : Bool
  criteriaBreakdown : Option (List CriterionScoreResult)
deriving DecidableEq

/-- One entry of the criteriaBreakdown array of the JSON object the scoring
adapter returns. -/
structure ParsedCriterion where
  criterionText : String
  points : ℚ
  maxPoints : ℚ
  feedback : Option String
deriving DecidableEq

/-- The JSON object the scoring adapter returns, as cast in scoreAnswer. -/
structure ParsedScore where
  points : ℚ
  feedback : String
  reasoning : String
  confidence : String
  flagForReview : Option Bool
  criteriaBreakdown : Option (List ParsedCriterion)
deriving DecidableEq

/-- IExtractedAnswer from the TestResult model; also the question entries of
ExtractedContent. -/
structure ExtractedAnswer where
  questionNumber : Int
  studentAnswer : String
deriving DecidableEq

/-- ExtractedContent from gemini-vision.service.ts. -/
structure ExtractedContent where
  rawText : String
  questions : List ExtractedAnswer
deriving DecidableEq

/-- SchemaQuestion from gemini-vision.service.ts. -/
structure SchemaQuestion where
  questionNumber : Int
  questionText : String
  maxPoints : ℚ
deriving DecidableEq

/-! ## Scoring service (scoring.service.ts, Gemini version) -/

/-- scoreAnswer from scoring.service.ts. The generateContent call together
with JSON parsing is modelled by the outcome argument: error carries the
thrown error's message (exception, empty response or unparseable output),
ok carries the parsed JSON object. The clamping, breakdown validation and
normalization, and the degraded error result follow the source. -/
def scoreAnswer (question : IQuestion) (studentAnswer : String)
    (rubricGuidelines : RubricGuidelines)
    (outcome : Except String ParsedScore) : ScoringResult :=
  let criteria := parseCriteriaString question.evaluationCriteria
  match outcome with
  | .error msg =>
      { questionNumber := question.questionNumber
        points := 0
        maxPoints := question.maxPoints
        feedback := "Error during scoring. Please review manually."
        reasoning := "Scoring failed: " ++ msg
        confidence := "low"
        flagForReview := true
        criteriaBreakdown := none }
  | .ok parsed =>
      let points := max 0 (min (jsNumOr parsed.points 0) question.maxPoints)
      let criteriaBreakdown : Option (List CriterionScoreResult) :=
        match parsed.criteriaBreakdown with
        | none => none
        | some cbRaw =>
            if 0 < criteria.length ∧ 0 < cbRaw.length then
              let cb := cbRaw.map (fun c =>
                ({ criterionText := c.criterionText
                   points := max 0 c.points
                   maxPoints := max 0 c.maxPoints
                   feedback := c.feedback } : CriterionScoreResult))
              let breakdownSum := (cb.map (fun c => c.points)).sum
              if 1 / 100 < |breakdownSum - points| then
                if 0 < breakdownSum then
                  some (cb.map (fun c =>
                    { c with points := round2 (c.points * (points / breakdownSum)) }))
                else some cb
              else some cb
            else none
      { questionNumber := question.questionNumber
        points := points
        maxPoints := question.maxPoints
        feedback := jsStrOr parsed.feedback "No feedback provided"
        reasoning := jsStrOr parsed.reasoning "No reasoning provided"
        confidence := jsStrOr parsed.confidence "medium"
        flagForReview := parsed.flagForReview.getD false
        criteriaBreakdown := criteriaBreakdown }

/-- The answers map built by the scoring batch: Map.set makes the last entry
for a question number win. -/
def answersMapGet : List ExtractedAnswer → Int → Option String
  | [], _ => none
  | a :: rest, n =>
      match answersMapGet rest n with
      | some v => some v
      | none => if a.questionNumber = n then some a.studentAnswer else none

/-- The windowed for-loop of scoreAllAnswersParallel: consecutive slices of
the configured size are dispatched and their results appended in order. The
fuel argument bounds the recursion by the list length. -/
def batchLoopFuel (f : α → β) (c : Nat) : Nat → List α → List β
  | 0, _ => []
  | _ + 1, [] => []
  | fuel + 1, x :: xs =>
      ((x :: xs).take c).map f ++ batchLoopFuel f c fuel (xs.drop (c - 1))

/-- The windowed for-loop of scoreAllAnswersParallel over a whole list. -/
def batchLoop (f : α → β) (c : Nat) (l : List α) : List β :=
  batchLoopFuel f c l.length l

/-- scoreAllAnswersParallel from scoring.service.ts. Each scoreAnswer call's
adapter outcome is supplied by the oracle argument; the batch results are
finally sorted by question number (JavaScript sort is stable; a stable
insertion sort models it). -/
def scoreAllAnswersParallel (questions : List IQuestion)
    (extractedAnswers : List ExtractedAnswer)
    (rubricGuidelines : RubricGuidelines)
    (oracle : IQuestion → String → RubricGuidelines → Except String ParsedScore)
    (concurrency : Nat) : List ScoringResult :=
  let results := batchLoop (fun question =>
    let studentAnswer := (answersMapGet extractedAnswers question.questionNumber).getD ""
    scoreAnswer question studentAnswer rubricGuidelines
      (oracle question studentAnswer rubricGuidelines)) concurrency questions
  List.insertionSort (fun a b => a.questionNumber ≤ b.questionNumber) results

/-! ## Extraction service (gemini-vision.service.ts, schema-aware version) -/

/-- Outcome of one extractTextFromImage call's external part: the API call
threw or returned no text (apiError), the JSON parse of the response failed
(parseFail, carrying the raw text), or the parse succeeded (parsed). -/
inductive ImageOutcome where
  | apiError (msg : String)
  | parseFail (raw : String)
  | parsed (content : ExtractedContent)
deriving DecidableEq

/-- The backfill loop shared by extractTextFromImage and
extractTextFromMultipleImages: every schema question number missing from the
extracted list is appended with an empty answer. -/
def backfillSchemaQuestions (schemaQuestions : List SchemaQuestion)
    (questions : List ExtractedAnswer) : List ExtractedAnswer :=
  let existingQuestionNumbers := questions.map (fun q => q.questionNumber)
  questions ++
    (schemaQuestions.filter
      (fun q => ¬ existingQuestionNumbers.contains q.questionNumber)).map
      (fun q => ({ questionNumber := q.questionNumber, studentAnswer := "" } :
        ExtractedAnswer))

/-- extractTextFromImage from gemini-vision.service.ts. On a successful
parse with schema questions supplied, missing question numbers are backfilled
with empty answers and the list is sorted; on a parse failure the schema
questions (when supplied) are all returned with empty answers. -/
def extractTextFromImage (schemaQuestions : Option (List SchemaQuestion))
    (outcome : ImageOutcome) : Except String ExtractedContent :=
  match outcome with
  | .apiError msg => .error msg
  | .parseFail raw =>
      .ok { rawText := raw
            questions :=
              match schemaQuestions with
              | some sq => sq.map (fun q =>
                  ({ questionNumber := q.questionNumber, studentAnswer := "" } :
                    ExtractedAnswer))
              | none => [] }
  | .parsed content =>
      match schemaQuestions with
      | some sq =>
          if 0 < sq.length then
            .ok { content with
                  questions :=
                    List.insertionSort (fun a b => a.questionNumber ≤ b.questionNumber)
                      (backfillSchemaQuestions sq content.questions) }
          else .ok content
      | none => .ok content

/-- Lookup in the insertion-ordered question map (JavaScript Map.get): the
value of the first entry bearing the key. -/
def mapLookup : List (Int × String) → Int → Option String
  | [], _ => none
  | p :: ps, k => if p.1 = k then some p.2 else mapLookup ps k

/-- Update in the insertion-ordered question map (JavaScript Map.set): an
existing key keeps its position, a new key is appended. -/
def mapSet (m : List (Int × String)) (k : Int) (v : String) : List (Int × String) :=
  if m.any (fun p => p.1 = k) then
    m.map (fun p => if p.1 = k then (k, v) else p)
  else m ++ [(k, v)]

/-- One step of the merge loop of extractTextFromMultipleImages: a repeated
question number with non-blank text is concatenated onto the existing entry
with a newline (or replaces a falsy existing value); a repeated number with
blank text leaves the entry untouched; a new number is inserted as is. -/
def mergeStep (m : List (Int × String)) (q : ExtractedAnswer) : List (Int × String) :=
  match mapLookup m q.questionNumber with
  | some existing =>
      if q.studentAnswer ≠ "" ∧ jsTrim q.studentAnswer ≠ "" then
        mapSet m q.questionNumber
          (if existing ≠ "" then existing ++ "\n" ++ q.studentAnswer else q.studentAnswer)
      else m
  | none => m ++ [(q.questionNumber, q.studentAnswer)]

/-- The merge of all per-image question lists into one insertion-ordered
map, in page order. -/
def mergeQuestions (results : List ExtractedContent) : List (Int × String) :=
  results.foldl (fun m r => r.questions.foldl mergeStep m) []

/-- extractTextFromMultipleImages from gemini-vision.service.ts: every image
is extracted (a single failure fails the whole call, as Promise.all does),
raw texts are joined with the page-break marker, per-question answers are
merged by question number, missing schema questions are backfilled, and the
final list is sorted by question number. -/
def extractTextFromMultipleImages (schemaQuestions : Option (List SchemaQuestion))
    (outcomes : List ImageOutcome) : Except String ExtractedContent :=
  let processed := outcomes.map (extractTextFromImage schemaQuestions)
  match processed.findSome? (fun r =>
    match r with | .error m => some m | .ok _ => none) with
  | some msg => .error msg
  | none =>
      let results := processed.filterMap (fun r =>
        match r with | .ok c => some c | .error _ => none)
      let rawText := String.intercalate "\n\n---PAGE BREAK---\n\n"
        (results.map (fun r => r.rawText))
      let questions := (mergeQuestions results).map (fun p =>
        ({ questionNumber := p.1, studentAnswer := p.2 } : ExtractedAnswer))
      let questions :=
        match schemaQuestions with
        | some sq => if 0 < sq.length then backfillSchemaQuestions sq questions
                     else questions
        | none => questions
      .ok { rawText := rawText
            questions :=
              List.insertionSort (fun a b => a.questionNumber ≤ b.questionNumber)
                questions }

/-! ## TestResult model (models/index.ts) and its pre-save hook -/

/-- IQuestionScore from the TestResult model. -/
structure IQuestionScore where
  questionNumber : Int
  points : ℚ
  maxPoints : ℚ
  feedback : String
  reasoning : Option String
  confidence : String
  flagForReview : Bool
  manuallyAdjusted : Bool
  criteriaBreakdown : Option (List CriterionScoreResult)
deriving DecidableEq

/-- ITestResult from the TestResult model. The timestamps errorAt and
reviewedAt are abstract instants (naturals); errorMessage and errorAt are
the fields the background error update writes. -/
structure ITestResult where
  candidateName : Option String
  originalImages : List String
  extractedText : String
  extractedAnswers : List ExtractedAnswer
  scores : List IQuestionScore
  totalScore : ℚ
  maxScore : ℚ
  status : String
  reviewNotes : Option String
  reviewedBy : Option String
  reviewedAt : Option Nat
  errorMessage : Option String
  errorAt : Option Nat
deriving DecidableEq

/-- The status enum declared for TestResultSchema in the model source. -/
def statusEnum : List String :=
  ["pending", "processing", "extracted", "scored", "reviewed"]

/-- Whether a score fails the pre-save breakdown check: a non-empty
criteriaBreakdown whose point sum differs from the score's points by more
than the 0.01 tolerance. -/
def breakdownBad (s : IQuestionScore) : Bool :=
  match s.criteriaBreakdown with
  | some b =>
      decide (0 < b.length) &&
      decide (1 / 100 < |(b.map (fun c => c.points)).sum - s.points|)
  | none => false

/-- The TestResultSchema pre-save hook: with a non-empty scores list, a score
whose breakdown sum disagrees with its points beyond the 0.01 tolerance makes
the save throw; otherwise totalScore and maxScore are recomputed as the sums
over the scores. A save (Document.save) is this hook followed by the write,
so its Except result is the persisted document or the rejection. -/
def preSave (t : ITestResult) : Except String ITestResult :=
  if 0 < t.scores.length then
    match t.scores.find? breakdownBad with
    | some s =>
        .error ("Question " ++ toString s.questionNumber ++
          ": Criteria breakdown sum must equal total points")
    | none =>
        .ok { t with
              totalScore := (t.scores.map (fun s => s.points)).sum
              maxScore := (t.scores.map (fun s => s.maxPoints)).sum }
  else .ok t

/-! ## Scoring schema document (scoring-schema model, fields the routes use) -/

/-- The populated scoring schema as the score route uses it. -/
structure IScoringSchema where
  questions : List IQuestion
  rubricGuidelines : RubricGuidelines
deriving DecidableEq

/-! ## Test routes (test.routes.ts) -/

/-- The HTTP response a route handler sends: a success payload or an error
status code with a message. -/
inductive RouteResponse where
  | ok
  | err (code : Nat) (msg : String)
deriving DecidableEq

/-- POST /api/tests/:id/process from test.routes.ts, for a found submission.
The handler result is the response paired with the submission state as
persisted when the handler finishes. Extraction is called without schema
questions, exactly as in the route. On extraction failure the status is set
back to pending and saved before the error propagates to the outer catch. -/
def processRoute (t : ITestResult) (outcomes : List ImageOutcome) :
    RouteResponse × ITestResult :=
  if t.status ≠ "pending" then (.err 400 "Test has already been processed", t)
  else
    match preSave { t with status := "processing" } with
    | .error _ => (.err 500 "Failed to process test", t)
    | .ok t1 =>
        match extractTextFromMultipleImages none outcomes with
        | .ok extracted =>
            let t2 := { t1 with
                        extractedText := extracted.rawText
                        extractedAnswers := extracted.questions.map (fun q =>
                          ({ questionNumber := q.questionNumber
                             studentAnswer := q.studentAnswer } : ExtractedAnswer))
                        status := "extracted" }
            match preSave t2 with
            | .ok t2s => (.ok, t2s)
            | .error _ =>
                match preSave { t2 with status := "pending" } with
                | .ok t3 => (.err 500 "Failed to process test", t3)
                | .error _ => (.err 500 "Failed to process test", t1)
        | .error _ =>
            match preSave { t1 with status := "pending" } with
            | .ok t3 => (.err 500 "Failed to process test", t3)
            | .error _ => (.err 500 "Failed to process test", t1)

/-- POST /api/tests/:id/score from test.routes.ts, for a found submission.
On a score-save failure the status is set back to extracted (on the document
still carrying the new scores) and saved before the error propagates. -/
def scoreRoute (t : ITestResult) (schema : Option IScoringSchema)
    (oracle : IQuestion → String → RubricGuidelines → Except String ParsedScore) :
    RouteResponse × ITestResult :=
  if t.status ≠ "extracted" then (.err 400 "Test must be extracted before scoring", t)
  else
    match schema with
    | none => (.err 400 "Schema not found for this test", t)
    | some sch =>
        match preSave { t with status := "processing" } with
        | .error _ => (.err 500 "Failed to score test", t)
        | .ok t1 =>
            let scores := scoreAllAnswersParallel sch.questions t1.extractedAnswers
              sch.rubricGuidelines oracle 2
            let t2 := { t1 with
                        scores := scores.map (fun s =>
                          ({ questionNumber := s.questionNumber
                             points := s.points
                             maxPoints := s.maxPoints
                             feedback := s.feedback
                             reasoning := some s.reasoning
                             confidence := s.confidence
                             flagForReview := s.flagForReview
                             manuallyAdjusted := false
                             criteriaBreakdown := s.criteriaBreakdown } : IQuestionScore))
                        status := "scored" }
            match preSave t2 with
            | .ok t2s => (.ok, t2s)
            | .error _ =>
                match preSave { t2 with status := "extracted" } with
                | .ok t3 => (.err 500 "Failed to score test", t3)
                | .error _ => (.err 500 "Failed to score test", t1)

/-! ## Background processing (claude-vision.service.ts, background variant) -/

/-- The findByIdAndUpdate call of the background catch handlers: only the
three error fields are written, bypassing the pre-save hook. -/
def errorUpdate (t : ITestResult) (msg : String) (now : Nat) : ITestResult :=
  { t with status := "error", errorMessage := some msg, errorAt := some now }

/-- processTestInBackground for a found submission: on success the extracted
content is stored with status extracted and the error message cleared; any
failure (extraction or save) is caught and recorded through errorUpdate. -/
def processTestInBackground (t : ITestResult) (outcomes : List ImageOutcome)
    (now : Nat) : ITestResult :=
  match extractTextFromMultipleImages none outcomes with
  | .ok extracted =>
      match preSave { t with
                      extractedText := extracted.rawText
                      extractedAnswers := extracted.questions.map (fun q =>
                        ({ questionNumber := q.questionNumber
                           studentAnswer := q.studentAnswer } : ExtractedAnswer))
                      status := "extracted"
                      errorMessage := none } with
      | .ok ts => ts
      | .error msg => errorUpdate t msg now
  | .error msg => errorUpdate t msg now

/-- scoreTestInBackground for a found submission: a missing schema throws
(caught and recorded through errorUpdate); otherwise all answers are scored
with window size 2 and stored (without criteria breakdowns, as this variant's
mapping omits them), status scored, error message cleared. -/
def scoreTestInBackground (t : ITestResult) (schema : Option IScoringSchema)
    (oracle : IQuestion → String → RubricGuidelines → Except String ParsedScore)
    (now : Nat) : ITestResult :=
  match schema with
  | none => errorUpdate t "Schema not found for this test" now
  | some sch =>
      let scores := scoreAllAnswersParallel sch.questions t.extractedAnswers
        sch.rubricGuidelines oracle 2
      match preSave { t with
                      scores := scores.map (fun s =>
                        ({ questionNumber := s.questionNumber
                           points := s.points
                           maxPoints := s.maxPoints
                           feedback := s.feedback
                           reasoning := some s.reasoning
                           confidence := s.confidence
                           flagForReview := s.flagForReview
                           manuallyAdjusted := false
                           criteriaBreakdown := none } : IQuestionScore))
                      status := "scored"
                      errorMessage := none } with
      | .ok ts => ts
      | .error msg => errorUpdate t msg now

/-! ## Human review score update (PUT /api/tests/:id/review) -/

/-- One entry of the scores array of a review request body, with the
presence checks the handler performs (typeof number, truthy string, typeof
boolean, array). -/
structure ScoreUpdate where
  points : Option ℚ
  feedback : Option String
  flagForReview : Option Bool
  criteriaBreakdown : Option (List ParsedCriterion)
deriving DecidableEq

/-- The per-question update of the review handler: an explicit points value
is clamped to the score's own maxPoints; a supplied criteria breakdown is
stored with its entries clamped below at 0 and the score's points recomputed
as the breakdown total, without clamping to maxPoints. -/
def applyScoreUpdate (existingScore : IQuestionScore) (scoreUpdate : ScoreUpdate) :
    IQuestionScore :=
  let s1 :=
    match scoreUpdate.points with
    | some p => { existingScore with
                  points := max 0 (min p existingScore.maxPoints)
                  manuallyAdjusted := true }
    | none => existingScore
  let s2 :=
    match scoreUpdate.feedback with
    | some f => if f ≠ "" then { s1 with feedback := f } else s1
    | none => s1
  let s3 :=
    match scoreUpdate.flagForReview with
    | some b => { s2 with flagForReview := b }
    | none => s2
  match scoreUpdate.criteriaBreakdown with
  | some bs =>
      let cb := bs.map (fun c =>
        ({ criterionText := c.criterionText
           points := max 0 c.points
           maxPoints := max 0 c.maxPoints
           feedback := c.feedback } : CriterionScoreResult))
      let breakdownTotal := (cb.map (fun c => c.points)).sum
      { s3 with
        criteriaBreakdown := some cb
        points := breakdownTotal
        manuallyAdjusted := true }
  | none => s3

/-- The per-question closure dispatched by the scoreAllAnswersParallel batch
loop: the student answer is looked up in the answers map (empty string when
absent) and scoreAnswer is called on it. -/
def scoreOne (extractedAnswers : List ExtractedAnswer)
    (rubricGuidelines : RubricGuidelines)
    (oracle : IQuestion → String → RubricGuidelines → Except String ParsedScore)
    (question : IQuestion) : ScoringResult :=
  scoreAnswer question
    ((answersMapGet extractedAnswers question.questionNumber).getD "")
    rubricGuidelines
    (oracle question
      ((answersMapGet extractedAnswers question.questionNumber).getD "")
      rubricGuidelines)

/-! ## Concrete instances used by witnesses and counterexamples -/

/-- A sample rubric guideline triple. -/
def rgW : RubricGuidelines :=
  { fullCredit := "full", partialCredit := "part", noCredit := "none" }

/-- Sample schema question 1 (5 points, no criteria text). -/
def qW1 : IQuestion :=
  { questionNumber := 1, questionText := "Q1", maxPoints := 5,
    evaluationCriteria := "", sampleAnswer := none }

/-- Sample schema question 2 (10 points). -/
def qW2 : IQuestion :=
  { questionNumber := 2, questionText := "Q2", maxPoints := 10,
    evaluationCriteria := "", sampleAnswer := none }

/-- Sample schema question 3 (5 points). -/
def qW3 : IQuestion :=
  { questionNumber := 3, questionText := "Q3", maxPoints := 5,
    evaluationCriteria := "", sampleAnswer := none }

/-- A well-formed parsed adapter response awarding 3 points. -/
def parsedW : ParsedScore :=
  { points := 3, feedback := "ok", reasoning := "r", confidence := "high",
    flagForReview := some false, criteriaBreakdown := none }

/-- A parsed adapter response with an out-of-range negative score. -/
def parsedNeg : ParsedScore :=
  { points := -5, feedback := "ok", reasoning := "r", confidence := "high",
    flagForReview := some false, criteriaBreakdown := none }

/-- An adapter oracle that throws for question 2 and answers normally
elsewhere. -/
def oW1 : IQuestion → String → RubricGuidelines → Except String ParsedScore :=
  fun q _ _ => if q.questionNumber = 2 then .error "boom" else .ok parsedW

/-- An adapter oracle that always answers normally. -/
def oW2 : IQuestion → String → RubricGuidelines → Except String ParsedScore :=
  fun _ _ _ => .ok parsedW

/-- Sample extracted answers: question 1 answered, question 4 not in the
schema. -/
def ansW5 : List ExtractedAnswer :=
  [{ questionNumber := 1, studentAnswer := "a1" },
   { questionNumber := 4, studentAnswer := "x" }]

/-- A freshly uploaded pending submission with no scores. -/
def tPending : ITestResult :=
  { candidateName := none, originalImages := ["img1"], extractedText := "",
    extractedAnswers := [], scores := [], totalScore := 0, maxScore := 0,
    status := "pending", reviewNotes := none, reviewedBy := none,
    reviewedAt := none, errorMessage := none, errorAt := none }

/-- A submission already scored (used against the state guards). -/
def tScored : ITestResult :=
  { tPending with status := "scored" }

/-- A consistent scored submission with a single 3-of-5 score. -/
def tW8 : ITestResult :=
  { tPending with
    status := "scored"
    scores := [{ questionNumber := 1, points := 3, maxPoints := 5,
                 feedback := "f", reasoning := none, confidence := "high",
                 flagForReview := false, manuallyAdjusted := false,
                 criteriaBreakdown := none }] }

/-- The consistent scored submission after its save recomputes the derived
totals. -/
def tW8s : ITestResult := { tW8 with totalScore := 3, maxScore := 5 }

/-- A submission whose single score has a breakdown summing to 2 against a
reported total of 0. -/
def tBad : ITestResult :=
  { tPending with
    status := "scored"
    scores := [{ questionNumber := 1, points := 0, maxPoints := 5,
                 feedback := "f", reasoning := none, confidence := "high",
                 flagForReview := false, manuallyAdjusted := false,
                 criteriaBreakdown := some [{ criterionText := "a", points := 2,
                                              maxPoints := 2, feedback := none }] }] }

/-- A question whose criteria text parses into three criteria. -/
def qC6 : IQuestion :=
  { questionNumber := 1, questionText := "Q1", maxPoints := 10,
    evaluationCriteria := "a\nb\nc", sampleAnswer := none }

/-- The raw criteria breakdown returned by the adapter for the C6 scenario:
one point on each of the three criteria, summing to 3. -/
def cbRawC6 : List ParsedCriterion :=
  [{ criterionText := "a", points := 1, maxPoints := 4, feedback := none },
   { criterionText := "b", points := 1, maxPoints := 3, feedback := none },
   { criterionText := "c", points := 1, maxPoints := 3, feedback := none }]

/-- A parsed adapter response reporting 1 point with a breakdown summing
to 3. -/
def parsedC6 : ParsedScore :=
  { points := 1, feedback := "f", reasoning := "r", confidence := "high",
    flagForReview := some false, criteriaBreakdown := some cbRawC6 }

/-- A single-image extraction outcome returning answers for questions 1
and 3 only. -/
def imgW7 : ImageOutcome :=
  .parsed { rawText := "raw",
            questions := [{ questionNumber := 1, studentAnswer := "ans1" },
                          { questionNumber := 3, studentAnswer := "ans3" }] }

/-- The schema question list with question numbers 1, 2 and 3. -/
def sq123 : List SchemaQuestion :=
  [{ questionNumber := 1, questionText := "Q1", maxPoints := 5 },
   { questionNumber := 2, questionText := "Q2", maxPoints := 5 },
   { questionNumber := 3, questionText := "Q3", maxPoints := 5 }]

/-- Extraction result of image A: question 1 answered with non-empty text. -/
def contentA9 : ExtractedContent :=
  { rawText := "ra", questions := [{ questionNumber := 1, studentAnswer := "foo" }] }

/-- Extraction result of image B: question 1 repeated with an empty
answer. -/
def contentB9 : ExtractedContent :=
  { rawText := "rb", questions := [{ questionNumber := 1, studentAnswer := "" }] }

/-- An existing question score of 3 out of 10. -/
def sW10 : IQuestionScore :=
  { questionNumber := 1, points := 3, maxPoints := 10, feedback := "f",
    reasoning := none, confidence := "high", flagForReview := false,
    manuallyAdjusted := false, criteriaBreakdown := none }

/-- A review update supplying a breakdown whose points sum to 15, above the
question's 10 maxPoints. -/
def uW10 : ScoreUpdate :=
  { points := none, feedback := none, flagForReview := none,
    criteriaBreakdown := some
      [{ criterionText := "c1", points := 8, maxPoints := 8, feedback := none },
       { criterionText := "c2", points := 7, maxPoints := 7, feedback := none }] }

/-- A question whose criteria text parses into two criteria. -/
def qZ : IQuestion :=
  { questionNumber := 1, questionText := "Q1", maxPoints := 10,
    evaluationCriteria := "c1\nc2", sampleAnswer := none }

/-- A parsed adapter response reporting 1 point with an all-zero breakdown,
which normalization leaves all-zero, so the stored score fails the pre-save
tolerance check. -/
def parsedZ : ParsedScore :=
  { points := 1, feedback := "f", reasoning := "r", confidence := "high",
    flagForReview := some false,
    criteriaBreakdown := some
      [{ criterionText := "c1", points := 0, maxPoints := 5, feedback := none },
       { criterionText := "c2", points := 0, maxPoints := 5, feedback := none }] }

/-- An adapter oracle always returning the all-zero-breakdown response. -/
def oZ : IQuestion → String → RubricGuidelines → Except String ParsedScore :=
  fun _ _ _ => .ok parsedZ

/-- A one-question schema around qZ. -/
def schZ : IScoringSchema := { questions := [qZ], rubricGuidelines := rgW }

/-- A submission sitting in the extracted state with no scores. -/
def tExtracted : ITestResult := { tPending with status := "extracted" }

/-- The same submission as persisted by the score route's first save. -/
def tProcessingZ : ITestResult := { tPending with status := "processing" }

/-- The message of the pre-save rejection for question 1. -/
def msgZ : String :=
  "Question " ++ toString (1 : Int) ++
    ": Criteria breakdown sum must equal total points"

/-- An extraction result answering questions 1 and 3 only. -/
def content13 (a1 a3 : String) : ExtractedContent :=
  { rawText := "raw",
    questions := [{ questionNumber := 1, studentAnswer := a1 },
                  { questionNumber := 3, studentAnswer := a3 }] }

/-! ## Helper lemmas -/

theorem jsNumOr_zero (p : ℚ) : jsNumOr p 0 = p := by
  unfold jsNumOr
  split <;> simp_all

theorem batchLoopFuel_eq_map (f : α → β) (c : Nat) (hc : 1 ≤ c) :
    ∀ (fuel : Nat) (l : List α), l.length ≤ fuel →
      batchLoopFuel f c fuel l = l.map f := by
  intro fuel
  induction fuel with
  | zero =>
      intro l h
      cases l with
      | nil => rfl
      | cons x xs => simp at h
  | succ n ih =>
      intro l h
      cases l with
      | nil => rfl
      | cons x xs =>
          obtain ⟨d, rfl⟩ : ∃ d, c = d + 1 := ⟨c - 1, by omega⟩
          have hdrop : (xs.drop d).length ≤ n := by
            have := List.length_drop d xs
            simp at h
            omega
          simp only [batchLoopFuel, List.take_succ_cons, List.map_cons,
            Nat.add_sub_cancel, ih (xs.drop d) hdrop]
          have hs : List.map f (List.take d xs) ++ List.map f (List.drop d xs) =
              List.map f xs := by
            rw [← List.map_append, List.take_append_drop]
          rw [List.cons_append, hs]

theorem batchLoop_eq_map (f : α → β) (c : Nat) (hc : 1 ≤ c) (l : List α) :
    batchLoop f c l = l.map f :=
  batchLoopFuel_eq_map f c hc l.length l (le_refl _)

theorem scoreAllAnswersParallel_eq_sort_map (questions : List IQuestion)
    (extractedAnswers : List ExtractedAnswer) (rubricGuidelines : RubricGuidelines)
    (oracle : IQuestion → String → RubricGuidelines → Except String ParsedScore)
    (concurrency : Nat) (hc : 1 ≤ concurrency) :
    scoreAllAnswersParallel questions extractedAnswers rubricGuidelines oracle
        concurrency =
      List.insertionSort (fun a b => a.questionNumber ≤ b.questionNumber)
        (questions.map (scoreOne extractedAnswers rubricGuidelines oracle)) := by
  unfold scoreAllAnswersParallel
  rw [batchLoop_eq_map _ _ hc]
  rfl

instance : IsTotal ScoringResult (fun a b => a.questionNumber ≤ b.questionNumber) :=
  ⟨fun a b => Int.le_total a.questionNumber b.questionNumber⟩

instance : IsTrans ScoringResult (fun a b => a.questionNumber ≤ b.questionNumber) :=
  ⟨fun _ _ _ h1 h2 => le_trans h1 h2⟩

instance : IsTotal ExtractedAnswer (fun a b => a.questionNumber ≤ b.questionNumber) :=
  ⟨fun a b => Int.le_total a.questionNumber b.questionNumber⟩

instance : IsTrans ExtractedAnswer (fun a b => a.questionNumber ≤ b.questionNumber) :=
  ⟨fun _ _ _ h1 h2 => le_trans h1 h2⟩

theorem scoreAnswer_questionNumber (q : IQuestion) (a : String)
    (rg : RubricGuidelines) (oc : Except String ParsedScore) :
    (scoreAnswer q a rg oc).questionNumber = q.questionNumber := by
  cases oc <;> rfl

theorem perm_sorted_key_eq {α : Type} (key : α → Int) {l1 l2 : List α}
    (p : l1.Perm l2)
    (s1 : List.Sorted (fun a b => key a ≤ key b) l1)
    (s2 : List.Sorted (fun a b => key a ≤ key b) l2)
    (nd : (l1.map key).Nodup) : l1 = l2 := by
  have nd2 : (l2.map key).Nodup := (p.map key).nodup nd
  have h1 : List.Sorted (fun a b => key a < key b) l1 := by
    have hne : List.Pairwise (fun a b => key a ≠ key b) l1 := List.pairwise_map.mp nd
    exact (s1.and hne).imp (fun h => lt_of_le_of_ne h.1 h.2)
  have h2 : List.Sorted (fun a b => key a < key b) l2 := by
    have hne : List.Pairwise (fun a b => key a ≠ key b) l2 := List.pairwise_map.mp nd2
    exact (s2.and hne).imp (fun h => lt_of_le_of_ne h.1 h.2)
  exact @List.eq_of_perm_of_sorted _ _
    ⟨fun a b hab hba => absurd hab (lt_asymm hba)⟩ _ _ p h1 h2

theorem filter_map_eq_of_agree (questions : List IQuestion)
    (f1 f2 : IQuestion → ScoringResult) (k : Int)
    (hnum1 : ∀ q, (f1 q).questionNumber = q.questionNumber)
    (hnum2 : ∀ q, (f2 q).questionNumber = q.questionNumber)
    (hagree : ∀ q, q.questionNumber ≠ k → f1 q = f2 q) :
    (questions.map f1).filter (fun r => r.questionNumber != k) =
      (questions.map f2).filter (fun r => r.questionNumber != k) := by
  induction questions with
  | nil => rfl
  | cons q qs ih =>
      by_cases h : q.questionNumber = k
      · simp only [List.map_cons, List.filter_cons, hnum1 q, hnum2 q, h,
          bne_self_eq_false, Bool.false_eq_true, if_false, ih]
      · rw [List.map_cons, List.map_cons, List.filter_cons, List.filter_cons,
          hagree q h, ih]

theorem answersMapGet_eq_none (answers : List ExtractedAnswer) (n : Int)
    (h : ∀ a ∈ answers, a.questionNumber ≠ n) : answersMapGet answers n = none := by
  induction answers with
  | nil => rfl
  | cons a rest ih =>
      simp only [answersMapGet, ih (fun x hx => h x (List.mem_cons_of_mem a hx))]
      rw [if_neg (h a (List.mem_cons_self a rest))]

theorem answersMapGet_filter (nums : List Int) (answers : List ExtractedAnswer)
    (n : Int) (hn : n ∈ nums) :
    answersMapGet (answers.filter (fun a => decide (a.questionNumber ∈ nums))) n =
      answersMapGet answers n := by
  induction answers with
  | nil => rfl
  | cons a rest ih =>
      rw [List.filter_cons]
      by_cases h : a.questionNumber ∈ nums
      · rw [if_pos (by simpa using h)]
        simp only [answersMapGet, ih]
      · rw [if_neg (by simpa using h)]
        have hne : a.questionNumber ≠ n := fun he => h (he ▸ hn)
        rw [ih]
        cases hr : answersMapGet rest n with
        | none => simp [answersMapGet, hr, hne]
        | some v => simp [answersMapGet, hr]

theorem scoreOne_questionNumber (answers : List ExtractedAnswer)
    (rg : RubricGuidelines)
    (oracle : IQuestion → String → RubricGuidelines → Except String ParsedScore)
    (q : IQuestion) :
    (scoreOne answers rg oracle q).questionNumber = q.questionNumber :=
  scoreAnswer_questionNumber _ _ _ _

theorem map_scoreOne_questionNumber (questions : List IQuestion)
    (answers : List ExtractedAnswer) (rg : RubricGuidelines)
    (oracle : IQuestion → String → RubricGuidelines → Except String ParsedScore) :
    (questions.map (scoreOne answers rg oracle)).map (fun r => r.questionNumber) =
      questions.map (fun q => q.questionNumber) := by
  rw [List.map_map]
  exact List.map_congr_left (fun x _ => scoreOne_questionNumber _ _ _ _)

/-- C1: if the scoring adapter call throws or returns unparseable output,
scoreAnswer does not propagate the error but returns the degraded result
(zero points, full maxPoints, the fixed manual-review feedback, low
confidence, review flag set, reasoning carrying the captured error text),
and scoreAllAnswersParallel still returns exactly one result per input
question, sorted by question number, with the results of the other
questions unaffected by the failure. -/
theorem claim_C1
    (q : IQuestion) (ans : String) (rg : RubricGuidelines) (e : String)
    (questions : List IQuestion) (answers : List ExtractedAnswer)
    (o1 o2 : IQuestion → String → RubricGuidelines → Except String ParsedScore)
    (c : Nat) (k : Int)
    (hc : 1 ≤ c)
    (hnd : (questions.map (fun q' => q'.questionNumber)).Nodup)
    (hagree : ∀ q' a', q'.questionNumber ≠ k → o1 q' a' rg = o2 q' a' rg) :
    scoreAnswer q ans rg (.error e) =
      { questionNumber := q.questionNumber, points := 0,
        maxPoints := q.maxPoints,
        feedback := "Error during scoring. Please review manually.",
        reasoning := "Scoring failed: " ++ e, confidence := "low",
        flagForReview := true, criteriaBreakdown := none }
    ∧ (scoreAllAnswersParallel questions answers rg o1 c).length = questions.length
    ∧ List.Sorted (fun a b => a.questionNumber ≤ b.questionNumber)
        (scoreAllAnswersParallel questions answers rg o1 c)
    ∧ ((scoreAllAnswersParallel questions answers rg o1 c).map
        (fun r => r.questionNumber)).Perm
        (questions.map (fun q' => q'.questionNumber))
    ∧ (scoreAllAnswersParallel questions answers rg o1 c).filter
        (fun r => r.questionNumber != k) =
      (scoreAllAnswersParallel questions answers rg o2 c).filter
        (fun r => r.questionNumber != k) := by
  have E1 := scoreAllAnswersParallel_eq_sort_map questions answers rg o1 c hc
  have E2 := scoreAllAnswersParallel_eq_sort_map questions answers rg o2 c hc
  refine ⟨rfl, ?_, ?_, ?_, ?_⟩
  · rw [E1]
    exact ((List.perm_insertionSort _ _).length_eq).trans (List.length_map _ _)
  · rw [E1]
    exact List.sorted_insertionSort _ _
  · rw [E1]
    have hkey := map_scoreOne_questionNumber questions answers rg o1
    exact hkey ▸ ((List.perm_insertionSort _ _).map _)
  · rw [E1, E2]
    have hagreeOne : ∀ q', q'.questionNumber ≠ k →
        scoreOne answers rg o1 q' = scoreOne answers rg o2 q' := by
      intro q' hq
      unfold scoreOne
      rw [hagree q' _ hq]
    have hfeq := filter_map_eq_of_agree questions
      (scoreOne answers rg o1) (scoreOne answers rg o2) k
      (fun q' => scoreOne_questionNumber _ _ _ _)
      (fun q' => scoreOne_questionNumber _ _ _ _) hagreeOne
    have p1 := List.perm_insertionSort
      (fun a b : ScoringResult => a.questionNumber ≤ b.questionNumber)
      (questions.map (scoreOne answers rg o1))
    have p2 := List.perm_insertionSort
      (fun a b : ScoringResult => a.questionNumber ≤ b.questionNumber)
      (questions.map (scoreOne answers rg o2))
    have pp := ((p1.filter (fun r : ScoringResult => r.questionNumber != k)).trans
      (hfeq ▸ (p2.filter (fun r : ScoringResult => r.questionNumber != k)).symm))
    have s1 := List.sorted_insertionSort
      (fun a b : ScoringResult => a.questionNumber ≤ b.questionNumber)
      (questions.map (scoreOne answers rg o1))
    have s2 := List.sorted_insertionSort
      (fun a b : ScoringResult => a.questionNumber ≤ b.questionNumber)
      (questions.map (scoreOne answers rg o2))
    have nd1 : (((questions.map (scoreOne answers rg o1)).map
        (fun r => r.questionNumber))).Nodup := by
      rw [map_scoreOne_questionNumber]
      exact hnd
    have ndL1 := ((p1.map (fun r : ScoringResult => r.questionNumber)).symm).nodup nd1
    have ndf : (((List.insertionSort
        (fun a b : ScoringResult => a.questionNumber ≤ b.questionNumber)
        (questions.map (scoreOne answers rg o1))).filter
        (fun r => r.questionNumber != k)).map (fun r => r.questionNumber)).Nodup :=
      (((List.filter_sublist _).map (fun r : ScoringResult => r.questionNumber)).nodup ndL1)
    exact perm_sorted_key_eq (fun r => r.questionNumber) pp
      (s1.filter _) (s2.filter _) ndf

theorem claim_C1_witness :
    scoreAnswer qW1 "" rgW (.error "boom") =
      { questionNumber := qW1.questionNumber, points := 0,
        maxPoints := qW1.maxPoints,
        feedback := "Error during scoring. Please review manually.",
        reasoning := "Scoring failed: " ++ "boom", confidence := "low",
        flagForReview := true, criteriaBreakdown := none }
    ∧ (scoreAllAnswersParallel [qW1, qW2, qW3] [] rgW oW1 2).length =
        [qW1, qW2, qW3].length
    ∧ List.Sorted (fun a b => a.questionNumber ≤ b.questionNumber)
        (scoreAllAnswersParallel [qW1, qW2, qW3] [] rgW oW1 2)
    ∧ ((scoreAllAnswersParallel [qW1, qW2, qW3] [] rgW oW1 2).map
        (fun r => r.questionNumber)).Perm
        ([qW1, qW2, qW3].map (fun q' => q'.questionNumber))
    ∧ (scoreAllAnswersParallel [qW1, qW2, qW3] [] rgW oW1 2).filter
        (fun r => r.questionNumber != 2) =
      (scoreAllAnswersParallel [qW1, qW2, qW3] [] rgW oW2 2).filter
        (fun r => r.questionNumber != 2) :=
  claim_C1 qW1 "" rgW "boom" [qW1, qW2, qW3] [] oW1 oW2 2 2
    (by norm_num)
    (by decide)
    (by
      intro q' a' h
      simp only [oW1, oW2]
      rw [if_neg h])

/-- C3: the orchestrator clamps the adapter's points to the closed interval
from 0 to the question's maxPoints: with maxPoints nonnegative the stored
value lies in that interval, a negative adapter value stores 0 and a value
above maxPoints stores maxPoints. -/
theorem claim_C3 (q : IQuestion) (ans : String) (rg : RubricGuidelines)
    (parsed : ParsedScore) (hm : 0 ≤ q.maxPoints) :
    (0 ≤ (scoreAnswer q ans rg (.ok parsed)).points ∧
      (scoreAnswer q ans rg (.ok parsed)).points ≤ q.maxPoints)
    ∧ (parsed.points < 0 → (scoreAnswer q ans rg (.ok parsed)).points = 0)
    ∧ (q.maxPoints < parsed.points →
        (scoreAnswer q ans rg (.ok parsed)).points = q.maxPoints) := by
  have hpts : (scoreAnswer q ans rg (.ok parsed)).points =
      max 0 (min (jsNumOr parsed.points 0) q.maxPoints) := rfl
  rw [hpts, jsNumOr_zero]
  refine ⟨⟨le_max_left _ _, max_le hm (min_le_right _ _)⟩, ?_, ?_⟩
  · intro hneg
    rw [min_eq_left (le_trans (le_of_lt hneg) hm)]
    exact max_eq_left (le_of_lt hneg)
  · intro hover
    rw [min_eq_right (le_of_lt hover)]
    exact max_eq_right hm

theorem claim_C3_witness :
    (0 ≤ (scoreAnswer qW2 "a" rgW (.ok parsedNeg)).points ∧
      (scoreAnswer qW2 "a" rgW (.ok parsedNeg)).points ≤ qW2.maxPoints)
    ∧ (parsedNeg.points < 0 → (scoreAnswer qW2 "a" rgW (.ok parsedNeg)).points = 0)
    ∧ (qW2.maxPoints < parsedNeg.points →
        (scoreAnswer qW2 "a" rgW (.ok parsedNeg)).points = qW2.maxPoints) :=
  claim_C3 qW2 "a" rgW parsedNeg (by norm_num [qW2])

/-- C5: the scoring batch produces exactly one score per schema question,
iterating over the rubric's question list: answers with question numbers
outside the schema are dropped, schema questions without a matching answer
are scored against the empty string, the output is sorted ascending by
question number, and the result does not depend on the concurrency window
size. -/
theorem claim_C5 (questions : List IQuestion) (answers : List ExtractedAnswer)
    (rg : RubricGuidelines)
    (oracle : IQuestion → String → RubricGuidelines → Except String ParsedScore)
    (c c' : Nat) (hc : 1 ≤ c) (hc' : 1 ≤ c') :
    (scoreAllAnswersParallel questions answers rg oracle c).length = questions.length
    ∧ ((scoreAllAnswersParallel questions answers rg oracle c).map
        (fun r => r.questionNumber)).Perm
        (questions.map (fun q => q.questionNumber))
    ∧ scoreAllAnswersParallel questions
        (answers.filter (fun a =>
          decide (a.questionNumber ∈ questions.map (fun q => q.questionNumber))))
        rg oracle c =
      scoreAllAnswersParallel questions answers rg oracle c
    ∧ (∀ q ∈ questions, (∀ a ∈ answers, a.questionNumber ≠ q.questionNumber) →
        scoreAnswer q "" rg (oracle q "" rg) ∈
          scoreAllAnswersParallel questions answers rg oracle c)
    ∧ List.Sorted (fun a b => a.questionNumber ≤ b.questionNumber)
        (scoreAllAnswersParallel questions answers rg oracle c)
    ∧ scoreAllAnswersParallel questions answers rg oracle c =
        scoreAllAnswersParallel questions answers rg oracle c' := by
  have E := scoreAllAnswersParallel_eq_sort_map questions answers rg oracle c hc
  refine ⟨?_, ?_, ?_, ?_, ?_, ?_⟩
  · rw [E]
    exact ((List.perm_insertionSort _ _).length_eq).trans (List.length_map _ _)
  · rw [E]
    exact map_scoreOne_questionNumber questions answers rg oracle ▸
      ((List.perm_insertionSort _ _).map _)
  · rw [E, scoreAllAnswersParallel_eq_sort_map _ _ rg oracle c hc]
    congr 1
    refine List.map_congr_left (fun q hq => ?_)
    unfold scoreOne
    rw [answersMapGet_filter (questions.map (fun q => q.questionNumber)) answers
      q.questionNumber (List.mem_map_of_mem _ hq)]
  · intro q hq hnone
    rw [E]
    refine ((List.perm_insertionSort _ _).mem_iff).mpr ?_
    have : scoreOne answers rg oracle q = scoreAnswer q "" rg (oracle q "" rg) := by
      unfold scoreOne
      rw [answersMapGet_eq_none answers _ hnone]
      rfl
    exact this ▸ List.mem_map_of_mem _ hq
  · rw [E]
    exact List.sorted_insertionSort _ _
  · rw [E, scoreAllAnswersParallel_eq_sort_map questions answers rg oracle c' hc']

theorem claim_C5_witness :
    (scoreAllAnswersParallel [qW1, qW2, qW3] ansW5 rgW oW2 2).length =
        [qW1, qW2, qW3].length
    ∧ ((scoreAllAnswersParallel [qW1, qW2, qW3] ansW5 rgW oW2 2).map
        (fun r => r.questionNumber)).Perm
        ([qW1, qW2, qW3].map (fun q => q.questionNumber))
    ∧ scoreAllAnswersParallel [qW1, qW2, qW3]
        (ansW5.filter (fun a =>
          decide (a.questionNumber ∈ [qW1, qW2, qW3].map (fun q => q.questionNumber))))
        rgW oW2 2 =
      scoreAllAnswersParallel [qW1, qW2, qW3] ansW5 rgW oW2 2
    ∧ (∀ q ∈ [qW1, qW2, qW3], (∀ a ∈ ansW5, a.questionNumber ≠ q.questionNumber) →
        scoreAnswer q "" rgW (oW2 q "" rgW) ∈
          scoreAllAnswersParallel [qW1, qW2, qW3] ansW5 rgW oW2 2)
    ∧ List.Sorted (fun a b => a.questionNumber ≤ b.questionNumber)
        (scoreAllAnswersParallel [qW1, qW2, qW3] ansW5 rgW oW2 2)
    ∧ scoreAllAnswersParallel [qW1, qW2, qW3] ansW5 rgW oW2 2 =
        scoreAllAnswersParallel [qW1, qW2, qW3] ansW5 rgW oW2 3 :=
  claim_C5 [qW1, qW2, qW3] ansW5 rgW oW2 2 3 (by norm_num) (by norm_num)

/-- C4: triggering extraction from a status other than pending, or scoring
from a status other than extracted, returns an invalid-state error response
and leaves the submission exactly as it was: no content or status mutation
is persisted and the operation is not silently ignored. -/
theorem claim_C4 (t : ITestResult) (outcomes : List ImageOutcome)
    (schema : Option IScoringSchema)
    (oracle : IQuestion → String → RubricGuidelines → Except String ParsedScore) :
    (t.status ≠ "pending" →
      processRoute t outcomes = (.err 400 "Test has already been processed", t))
    ∧ (t.status ≠ "extracted" →
      scoreRoute t schema oracle =
        (.err 400 "Test must be extracted before scoring", t)) := by
  constructor
  · intro h
    unfold processRoute
    rw [if_pos h]
  · intro h
    unfold scoreRoute
    rw [if_pos h]

theorem claim_C4_witness :
    processRoute tScored [] = (.err 400 "Test has already been processed", tScored)
    ∧ scoreRoute tScored none oW2 =
        (.err 400 "Test must be extracted before scoring", tScored) :=
  ⟨(claim_C4 tScored [] none oW2).1 (by decide),
   (claim_C4 tScored [] none oW2).2 (by decide)⟩

/-- C8: a successful save of a submission with a non-empty scores list
stores totalScore equal to the sum of the scores' points and maxScore equal
to the sum of their maxPoints, with the scores themselves unchanged, so the
derived totals cannot diverge from the stored scores across any saving
operation. -/
theorem claim_C8 (t t' : ITestResult) (hne : t.scores ≠ [])
    (h : preSave t = .ok t') :
    t'.totalScore = (t.scores.map (fun s => s.points)).sum
    ∧ t'.maxScore = (t.scores.map (fun s => s.maxPoints)).sum
    ∧ t'.scores = t.scores := by
  have hlen : 0 < t.scores.length := List.length_pos.mpr hne
  unfold preSave at h
  rw [if_pos hlen] at h
  cases hf : t.scores.find? breakdownBad with
  | some s =>
      rw [hf] at h
      cases h
  | none =>
      rw [hf] at h
      cases h
      exact ⟨rfl, rfl, rfl⟩

theorem claim_C8_witness :
    tW8s.totalScore = (tW8.scores.map (fun s => s.points)).sum
    ∧ tW8s.maxScore = (tW8.scores.map (fun s => s.maxPoints)).sum
    ∧ tW8s.scores = tW8.scores :=
  claim_C8 tW8 tW8s (by simp [tW8, tPending])
    (by
      simp only [preSave, breakdownBad, tW8, tW8s, tPending, List.find?]
      norm_num)

/-- C10: when a human-review score update carries a criteriaBreakdown array,
the stored points for that question become the sum of the supplied criterion
points (criterion points and maxPoints clamped below at 0), manuallyAdjusted
becomes true, and the recomputed total is not clamped to the question's
maxPoints: a breakdown summing above maxPoints yields stored points above
maxPoints. -/
theorem claim_C10 (s : IQuestionScore) (u : ScoreUpdate)
    (bs : List ParsedCriterion) (hb : u.criteriaBreakdown = some bs) :
    (applyScoreUpdate s u).points = (bs.map (fun c => max 0 c.points)).sum
    ∧ (applyScoreUpdate s u).manuallyAdjusted = true
    ∧ (applyScoreUpdate s u).criteriaBreakdown = some (bs.map (fun c =>
        ({ criterionText := c.criterionText, points := max 0 c.points,
           maxPoints := max 0 c.maxPoints,
           feedback := c.feedback } : CriterionScoreResult)))
    ∧ (s.maxPoints < (bs.map (fun c => max 0 c.points)).sum →
        s.maxPoints < (applyScoreUpdate s u).points) := by
  have hpts : (applyScoreUpdate s u).points = (bs.map (fun c => max 0 c.points)).sum := by
    unfold applyScoreUpdate
    rw [hb]
    show ((bs.map (fun c =>
      ({ criterionText := c.criterionText, points := max 0 c.points,
         maxPoints := max 0 c.maxPoints,
         feedback := c.feedback } : CriterionScoreResult))).map (fun c => c.points)).sum =
      (bs.map (fun c => max 0 c.points)).sum
    rw [List.map_map]
    rfl
  refine ⟨hpts, ?_, ?_, ?_⟩
  · unfold applyScoreUpdate
    rw [hb]
  · unfold applyScoreUpdate
    rw [hb]
  · intro hover
    rw [hpts]
    exact hover

theorem claim_C10_witness :
    (applyScoreUpdate sW10 uW10).points =
      (([{ criterionText := "c1", points := 8, maxPoints := 8, feedback := none },
         { criterionText := "c2", points := 7, maxPoints := 7, feedback := none }] :
        List ParsedCriterion).map (fun c => max 0 c.points)).sum
    ∧ (applyScoreUpdate sW10 uW10).manuallyAdjusted = true
    ∧ sW10.maxPoints < (applyScoreUpdate sW10 uW10).points :=
  ⟨(claim_C10 sW10 uW10 _ rfl).1,
   (claim_C10 sW10 uW10 _ rfl).2.1,
   (claim_C10 sW10 uW10 _ rfl).2.2.2 (by
      show sW10.maxPoints < _
      simp only [sW10, uW10, List.map_cons, List.map_nil, List.sum_cons,
        List.sum_nil]
      norm_num)⟩

theorem mapLookup_append_single_ne (m : List (Int × String)) (k n : Int)
    (v : String) (h : k ≠ n) : mapLookup (m ++ [(k, v)]) n = mapLookup m n := by
  induction m with
  | nil => simp [mapLookup, h]
  | cons p ps ih =>
      by_cases hp : p.1 = n <;> simp [mapLookup, hp, ih]

theorem mapLookup_append_single_self (m : List (Int × String)) (n : Int)
    (v : String) (h : mapLookup m n = none) :
    mapLookup (m ++ [(n, v)]) n = some v := by
  induction m with
  | nil => simp [mapLookup]
  | cons p ps ih =>
      rw [mapLookup] at h
      by_cases hp : p.1 = n
      · rw [if_pos hp] at h
        cases h
      · rw [if_neg hp] at h
        simpa [mapLookup, hp] using ih h

theorem mapLookup_any (m : List (Int × String)) (n : Int) (e : String)
    (he : mapLookup m n = some e) : m.any (fun p => p.1 = n) = true := by
  induction m with
  | nil => cases he
  | cons p ps ih =>
      rw [mapLookup] at he
      by_cases hp : p.1 = n
      · simp [hp]
      · rw [if_neg hp] at he
        simp [hp, ih he]

theorem lookup_mapReplace (m : List (Int × String)) (n : Int) (v : String)
    (hmem : m.any (fun p => p.1 = n) = true) :
    mapLookup (m.map (fun p => if p.1 = n then (n, v) else p)) n = some v := by
  induction m with
  | nil => simp at hmem
  | cons p ps ih =>
      by_cases hp : p.1 = n
      · simp [mapLookup, hp]
      · have hmem2 : ps.any (fun p => p.1 = n) = true := by
          rw [List.any_cons] at hmem
          simpa [hp] using hmem
        simp [mapLookup, hp, ih hmem2]

theorem lookup_mapReplace_ne (m : List (Int × String)) (k n : Int) (v : String)
    (h : k ≠ n) :
    mapLookup (m.map (fun p => if p.1 = k then (k, v) else p)) n = mapLookup m n := by
  induction m with
  | nil => rfl
  | cons p ps ih =>
      by_cases hp : p.1 = k
      · have hpn : ¬ p.1 = n := by
          rw [hp]
          exact h
        simp [mapLookup, hp, hpn, h, ih]
      · by_cases hn : p.1 = n <;> simp [mapLookup, hp, hn, Ne.symm h, ih]

theorem mapLookup_mapSet_self (m : List (Int × String)) (n : Int) (v : String)
    (hsome : ∃ e, mapLookup m n = some e) :
    mapLookup (mapSet m n v) n = some v := by
  obtain ⟨e, he⟩ := hsome
  have hmem := mapLookup_any m n e he
  unfold mapSet
  rw [if_pos hmem]
  exact lookup_mapReplace m n v hmem

theorem mapLookup_mapSet_ne (m : List (Int × String)) (k n : Int) (v : String)
    (h : k ≠ n) : mapLookup (mapSet m k v) n = mapLookup m n := by
  unfold mapSet
  by_cases hmem : m.any (fun p => p.1 = k) = true
  · rw [if_pos hmem]
    exact lookup_mapReplace_ne m k n v h
  · rw [if_neg hmem]
    exact mapLookup_append_single_ne m k n v h

theorem mergeStep_of_some (m : List (Int × String)) (q : ExtractedAnswer)
    (existing : String) (hl : mapLookup m q.questionNumber = some existing) :
    mergeStep m q =
      if q.studentAnswer ≠ "" ∧ jsTrim q.studentAnswer ≠ "" then
        mapSet m q.questionNumber
          (if existing ≠ "" then existing ++ "\n" ++ q.studentAnswer
           else q.studentAnswer)
      else m := by
  unfold mergeStep
  rw [hl]

theorem mergeStep_of_none (m : List (Int × String)) (q : ExtractedAnswer)
    (hl : mapLookup m q.questionNumber = none) :
    mergeStep m q = m ++ [(q.questionNumber, q.studentAnswer)] := by
  unfold mergeStep
  rw [hl]

theorem mapLookup_mergeStep_ne (m : List (Int × String)) (q : ExtractedAnswer)
    (n : Int) (h : q.questionNumber ≠ n) :
    mapLookup (mergeStep m q) n = mapLookup m n := by
  cases hl : mapLookup m q.questionNumber with
  | none =>
      rw [mergeStep_of_none m q hl]
      exact mapLookup_append_single_ne m _ n _ h
  | some existing =>
      rw [mergeStep_of_some m q existing hl]
      by_cases hc : q.studentAnswer ≠ "" ∧ jsTrim q.studentAnswer ≠ ""
      · rw [if_pos hc]
        exact mapLookup_mapSet_ne m _ n _ h
      · rw [if_neg hc]

theorem mergeStep_self_some (m : List (Int × String)) (q : ExtractedAnswer) :
    ∃ e, mapLookup (mergeStep m q) q.questionNumber = some e := by
  cases hl : mapLookup m q.questionNumber with
  | none =>
      rw [mergeStep_of_none m q hl]
      exact ⟨q.studentAnswer, mapLookup_append_single_self m _ _ hl⟩
  | some existing =>
      rw [mergeStep_of_some m q existing hl]
      by_cases hc : q.studentAnswer ≠ "" ∧ jsTrim q.studentAnswer ≠ ""
      · rw [if_pos hc]
        exact ⟨_, mapLookup_mapSet_self m _ _ ⟨existing, hl⟩⟩
      · rw [if_neg hc]
        exact ⟨existing, hl⟩

theorem mergeStep_some (m : List (Int × String)) (q : ExtractedAnswer) (n : Int)
    (e : String) (he : mapLookup m n = some e) :
    ∃ e2, mapLookup (mergeStep m q) n = some e2 := by
  by_cases h : q.questionNumber = n
  · rw [← h]
    exact mergeStep_self_some m q
  · exact ⟨e, (mapLookup_mergeStep_ne m q n h).trans he⟩

theorem foldl_mergeStep_some (qs : List ExtractedAnswer)
    (m : List (Int × String)) (n : Int)
    (h : ∃ e, mapLookup m n = some e) :
    ∃ e, mapLookup (qs.foldl mergeStep m) n = some e := by
  induction qs generalizing m with
  | nil => exact h
  | cons q rest ih =>
      obtain ⟨e, he⟩ := h
      exact ih (mergeStep m q) (mergeStep_some m q n e he)

theorem foldl_mergeStep_mem_some (qs : List ExtractedAnswer)
    (m : List (Int × String)) (n : Int)
    (hn : n ∈ qs.map (fun q => q.questionNumber)) :
    ∃ e, mapLookup (qs.foldl mergeStep m) n = some e := by
  induction qs generalizing m with
  | nil => simp at hn
  | cons q rest ih =>
      rw [List.foldl_cons]
      rw [List.map_cons, List.mem_cons] at hn
      cases hn with
      | inl heq =>
          exact foldl_mergeStep_some rest _ n (heq ▸ mergeStep_self_some m q)
      | inr hmem => exact ih (mergeStep m q) hmem

theorem foldl_mergeStep_empty_eq (qs : List ExtractedAnswer)
    (m : List (Int × String)) (n : Int)
    (hsome : ∃ e, mapLookup m n = some e)
    (hempty : ∀ q ∈ qs, q.questionNumber = n → q.studentAnswer = "") :
    mapLookup (qs.foldl mergeStep m) n = mapLookup m n := by
  induction qs generalizing m with
  | nil => rfl
  | cons q rest ih =>
      obtain ⟨e, he⟩ := hsome
      rw [List.foldl_cons]
      by_cases h : q.questionNumber = n
      · have hz : q.studentAnswer = "" :=
          hempty q (List.mem_cons_self q rest) h
        have hstep : mergeStep m q = m := by
          rw [mergeStep_of_some m q e (by rw [h]; exact he),
            if_neg (by simp [hz])]
        rw [hstep]
        exact ih m ⟨e, he⟩ (fun x hx => hempty x (List.mem_cons_of_mem q hx))
      · have hstep := mapLookup_mergeStep_ne m q n h
        exact (ih (mergeStep m q) ⟨e, hstep.trans he⟩
          (fun x hx => hempty x (List.mem_cons_of_mem q hx))).trans hstep

/-- C9: extraction results are merged by question number: a question number
repeated with non-empty text on a later page is concatenated newline-joined
onto the existing entry, a repeat with empty text preserves the existing
value, and merging images A and B, where B repeats a question number of A
with an empty answer, gives that question the same merged answer as image A
alone. -/
theorem claim_C9 :
    (∀ (m : List (Int × String)) (n : Int) (e a : String),
      mapLookup m n = some e → e ≠ "" → a ≠ "" → jsTrim a ≠ "" →
      mapLookup (mergeStep m { questionNumber := n, studentAnswer := a }) n =
        some (e ++ "\n" ++ a))
    ∧ (∀ (m : List (Int × String)) (n : Int) (e : String),
      mapLookup m n = some e →
      mergeStep m { questionNumber := n, studentAnswer := "" } = m)
    ∧ (∀ (A B : ExtractedContent) (n : Int),
      n ∈ A.questions.map (fun q => q.questionNumber) →
      (∀ q ∈ B.questions, q.questionNumber = n → q.studentAnswer = "") →
      mapLookup (mergeQuestions [A, B]) n = mapLookup (mergeQuestions [A]) n) := by
  refine ⟨?_, ?_, ?_⟩
  · intro m n e a he hene hane hatrim
    rw [mergeStep_of_some _ _ e he, if_pos ⟨hane, hatrim⟩, if_pos hene]
    exact mapLookup_mapSet_self m n _ ⟨e, he⟩
  · intro m n e he
    rw [mergeStep_of_some _ _ e he, if_neg (by simp)]
  · intro A B n hn hempty
    have h2 : mergeQuestions [A, B] =
        B.questions.foldl mergeStep (mergeQuestions [A]) := rfl
    rw [h2]
    exact foldl_mergeStep_empty_eq B.questions (mergeQuestions [A]) n
      (foldl_mergeStep_mem_some A.questions [] n hn) hempty

theorem claim_C9_witness :
    mapLookup (mergeStep [((1 : Int), "foo")]
      { questionNumber := 1, studentAnswer := "bar" }) 1 =
        some ("foo" ++ "\n" ++ "bar")
    ∧ mergeStep [((1 : Int), "foo")] { questionNumber := 1, studentAnswer := "" } =
        [((1 : Int), "foo")]
    ∧ mapLookup (mergeQuestions [contentA9, contentB9]) 1 =
        mapLookup (mergeQuestions [contentA9]) 1 :=
  ⟨claim_C9.1 [((1 : Int), "foo")] 1 "foo" "bar" (by decide) (by decide)
      (by decide) (by decide),
   claim_C9.2.1 [((1 : Int), "foo")] 1 "foo" (by decide),
   claim_C9.2.2 contentA9 contentB9 1 (by decide) (by decide)⟩

theorem sum_nonneg_all_zero (l : List ℚ) (hn : ∀ x ∈ l, 0 ≤ x)
    (hz : l.sum = 0) : ∀ x ∈ l, x = 0 := by
  induction l with
  | nil => intro x hx; cases hx
  | cons a rest ih =>
      rw [List.sum_cons] at hz
      have ha : 0 ≤ a := hn a (List.mem_cons_self a rest)
      have hrest : 0 ≤ rest.sum :=
        List.sum_nonneg (fun x hx => hn x (List.mem_cons_of_mem a hx))
      have ha0 : a = 0 := by linarith
      have hr0 : rest.sum = 0 := by linarith
      intro x hx
      rcases List.mem_cons.mp hx with he | hm
      · rw [he, ha0]
      · exact ih (fun y hy => hn y (List.mem_cons_of_mem a hy)) hr0 x hm

theorem scoreAnswer_breakdown_of_some (q : IQuestion) (ans : String)
    (rg : RubricGuidelines) (parsed : ParsedScore)
    (cbRaw : List ParsedCriterion)
    (hcb : parsed.criteriaBreakdown = some cbRaw) :
    (scoreAnswer q ans rg (.ok parsed)).criteriaBreakdown =
      (if 0 < (parseCriteriaString q.evaluationCriteria).length ∧
          0 < cbRaw.length then
        (if 1 / 100 <
            |((cbRaw.map (fun c =>
                ({ criterionText := c.criterionText, points := max 0 c.points,
                   maxPoints := max 0 c.maxPoints, feedback := c.feedback } :
                  CriterionScoreResult))).map (fun c => c.points)).sum -
              max 0 (min (jsNumOr parsed.points 0) q.maxPoints)| then
          (if 0 < ((cbRaw.map (fun c =>
              ({ criterionText := c.criterionText, points := max 0 c.points,
                 maxPoints := max 0 c.maxPoints, feedback := c.feedback } :
                CriterionScoreResult))).map (fun c => c.points)).sum then
            some ((cbRaw.map (fun c =>
              ({ criterionText := c.criterionText, points := max 0 c.points,
                 maxPoints := max 0 c.maxPoints, feedback := c.feedback } :
                CriterionScoreResult))).map (fun c =>
              { c with points := round2 (c.points *
                (max 0 (min (jsNumOr parsed.points 0) q.maxPoints) /
                  ((cbRaw.map (fun c =>
                    ({ criterionText := c.criterionText,
                       points := max 0 c.points,
                       maxPoints := max 0 c.maxPoints,
                       feedback := c.feedback } :
                      CriterionScoreResult))).map (fun c => c.points)).sum)) }))
          else some (cbRaw.map (fun c =>
            ({ criterionText := c.criterionText, points := max 0 c.points,
               maxPoints := max 0 c.maxPoints, feedback := c.feedback } :
              CriterionScoreResult))))
        else some (cbRaw.map (fun c =>
          ({ criterionText := c.criterionText, points := max 0 c.points,
             maxPoints := max 0 c.maxPoints, feedback := c.feedback } :
            CriterionScoreResult))))
      else none) := by
  obtain ⟨pp, pf, pr, pc, pfl, pcb⟩ := parsed
  cases hcb
  rfl

theorem breakdownBad_of_some (s : IQuestionScore)
    (b : List CriterionScoreResult) (hb : s.criteriaBreakdown = some b) :
    breakdownBad s =
      (decide (0 < b.length) &&
        decide (1 / 100 < |(b.map (fun c => c.points)).sum - s.points|)) := by
  obtain ⟨sn, sp, sm, sf, sr, sc, sfl, sma, scb⟩ := s
  cases hb
  rfl

/-- C6 (amended): a score with a non-empty criteriaBreakdown is never
silently persisted inconsistent with its total: a save succeeds only when
every breakdown's point sum is within 0.01 of the score's points, and is
rejected otherwise; and before persistence the orchestrator rescales each
criterion's points by the ratio points / breakdownSum, rounding each
rescaled value to the nearest hundredth, when the breakdown sum disagrees
with the total and is positive (a zero breakdown sum leaves the clamped
breakdown unchanged, all-zero). -/
theorem claim_C6 :
    (∀ (t t' : ITestResult), preSave t = .ok t' →
      ∀ s ∈ t'.scores, ∀ b, s.criteriaBreakdown = some b → 0 < b.length →
        |(b.map (fun c => c.points)).sum - s.points| ≤ 1 / 100)
    ∧ (∀ t : ITestResult,
      (∃ s ∈ t.scores, ∃ b, s.criteriaBreakdown = some b ∧ 0 < b.length ∧
        1 / 100 < |(b.map (fun c => c.points)).sum - s.points|) →
      ∃ msg, preSave t = .error msg)
    ∧ (∀ (q : IQuestion) (ans : String) (rg : RubricGuidelines)
        (parsed : ParsedScore) (cbRaw : List ParsedCriterion)
        (pts : ℚ) (cb : List CriterionScoreResult) (bSum : ℚ),
      0 < (parseCriteriaString q.evaluationCriteria).length →
      parsed.criteriaBreakdown = some cbRaw →
      0 < cbRaw.length →
      pts = max 0 (min (jsNumOr parsed.points 0) q.maxPoints) →
      cb = cbRaw.map (fun c =>
        ({ criterionText := c.criterionText, points := max 0 c.points,
           maxPoints := max 0 c.maxPoints, feedback := c.feedback } :
          CriterionScoreResult)) →
      bSum = (cb.map (fun c => c.points)).sum →
      ((1 / 100 < |bSum - pts| → 0 < bSum →
        (scoreAnswer q ans rg (.ok parsed)).criteriaBreakdown =
          some (cb.map (fun c =>
            { c with points := round2 (c.points * (pts / bSum)) })))
       ∧ (bSum = 0 →
          (scoreAnswer q ans rg (.ok parsed)).criteriaBreakdown = some cb
          ∧ ∀ c ∈ cb, c.points = 0))) := by
  refine ⟨?_, ?_, ?_⟩
  · intro t t' h s hs b hb hblen
    by_cases hsc : 0 < t.scores.length
    · unfold preSave at h
      rw [if_pos hsc] at h
      cases hf : t.scores.find? breakdownBad with
      | some s0 =>
          rw [hf] at h
          cases h
      | none =>
          rw [hf] at h
          cases h
          have hnb := List.find?_eq_none.mp hf s hs
          have hbbf : breakdownBad s = false := by
            cases hv : breakdownBad s with
            | false => rfl
            | true => exact absurd hv hnb
          rw [breakdownBad_of_some s b hb] at hbbf
          by_contra hgt
          rw [decide_eq_true hblen, decide_eq_true (lt_of_not_le hgt)] at hbbf
          cases hbbf
    · unfold preSave at h
      rw [if_neg hsc] at h
      cases h
      have hz : t.scores = [] :=
        List.length_eq_zero.mp (by omega)
      rw [hz] at hs
      cases hs
  · intro t hex
    obtain ⟨s, hs, b, hb, hblen, hgt⟩ := hex
    have hsc : 0 < t.scores.length :=
      List.length_pos.mpr (List.ne_nil_of_mem hs)
    unfold preSave
    rw [if_pos hsc]
    cases hf : t.scores.find? breakdownBad with
    | some s0 => exact ⟨_, rfl⟩
    | none =>
        exfalso
        apply List.find?_eq_none.mp hf s hs
        rw [breakdownBad_of_some s b hb, decide_eq_true hblen,
          decide_eq_true hgt]
        rfl
  · intro q ans rg parsed cbRaw pts cb bSum hcrit hcb hcbl hpts hcbdef hsum
    subst hpts
    subst hcbdef
    subst hsum
    constructor
    · intro hgt hpos
      rw [scoreAnswer_breakdown_of_some q ans rg parsed cbRaw hcb,
        if_pos ⟨hcrit, hcbl⟩, if_pos hgt, if_pos hpos]
    · intro h0
      have hcond : ¬ (0 < ((cbRaw.map (fun c =>
          ({ criterionText := c.criterionText, points := max 0 c.points,
             maxPoints := max 0 c.maxPoints, feedback := c.feedback } :
            CriterionScoreResult))).map (fun c => c.points)).sum) := by
        rw [h0]
        exact lt_irrefl 0
      constructor
      · rw [scoreAnswer_breakdown_of_some q ans rg parsed cbRaw hcb,
          if_pos ⟨hcrit, hcbl⟩]
        by_cases houter : 1 / 100 <
            |((cbRaw.map (fun c =>
              ({ criterionText := c.criterionText, points := max 0 c.points,
                 maxPoints := max 0 c.maxPoints, feedback := c.feedback } :
                CriterionScoreResult))).map (fun c => c.points)).sum -
              max 0 (min (jsNumOr parsed.points 0) q.maxPoints)|
        · rw [if_pos houter, if_neg hcond]
        · rw [if_neg houter]
      · intro c hcmem
        have hnn : ∀ x ∈ (cbRaw.map (fun c =>
            ({ criterionText := c.criterionText, points := max 0 c.points,
               maxPoints := max 0 c.maxPoints, feedback := c.feedback } :
              CriterionScoreResult))).map (fun c => c.points), 0 ≤ x := by
          intro x hx
          rw [List.map_map] at hx
          obtain ⟨c2, _, rfl⟩ := List.mem_map.mp hx
          exact le_max_left 0 _
        have := sum_nonneg_all_zero _ hnn h0 c.points
          (List.mem_map_of_mem (fun c => c.points) hcmem)
        exact this

theorem round_hundred_thirds : round ((100 : ℚ)/3) = 33 := by
  rw [round_eq, show (100 : ℚ)/3 + 1/2 = 203/6 by norm_num, Int.floor_eq_iff]
  constructor <;> norm_num

theorem claim_C6_counterexample :
    (scoreAnswer qC6 "ans" rgW (.ok parsedC6)).criteriaBreakdown =
      some [{ criterionText := "a", points := 33 / 100, maxPoints := 4,
              feedback := none },
            { criterionText := "b", points := 33 / 100, maxPoints := 3,
              feedback := none },
            { criterionText := "c", points := 33 / 100, maxPoints := 3,
              feedback := none }]
    ∧ (scoreAnswer qC6 "ans" rgW (.ok parsedC6)).points = 1
    ∧ ¬ ((33 : ℚ) / 100 = 1 * ((1 : ℚ) / 3)) := by
  refine ⟨?_, ?_, by norm_num⟩
  · rw [scoreAnswer_breakdown_of_some qC6 "ans" rgW parsedC6 cbRawC6 rfl]
    rw [if_pos ⟨by decide, by decide⟩]
    simp only [List.map_cons, List.map_nil, List.sum_cons, List.sum_nil, qC6,
      parsedC6, cbRawC6]
    rw [if_pos (by simp [jsNumOr]; norm_num)]
    rw [if_pos (by norm_num)]
    simp only [jsNumOr]
    norm_num [round2]
    rw [round_hundred_thirds]
    norm_num
  · have hp : (scoreAnswer qC6 "ans" rgW (.ok parsedC6)).points =
        max 0 (min (jsNumOr parsedC6.points 0) qC6.maxPoints) := rfl
    rw [hp]
    simp only [parsedC6, qC6, jsNumOr]
    norm_num

theorem claim_C6_witness :
    (∀ s ∈ tW8s.scores, ∀ b, s.criteriaBreakdown = some b → 0 < b.length →
      |(b.map (fun c => c.points)).sum - s.points| ≤ 1 / 100)
    ∧ (∃ msg, preSave tBad = .error msg)
    ∧ (scoreAnswer qC6 "ans" rgW (.ok parsedC6)).criteriaBreakdown =
        some ((cbRawC6.map (fun c =>
          ({ criterionText := c.criterionText, points := max 0 c.points,
             maxPoints := max 0 c.maxPoints, feedback := c.feedback } :
            CriterionScoreResult))).map (fun c =>
          { c with points := round2 (c.points *
            (max 0 (min (jsNumOr parsedC6.points 0) qC6.maxPoints) /
              ((cbRawC6.map (fun c =>
                ({ criterionText := c.criterionText, points := max 0 c.points,
                   maxPoints := max 0 c.maxPoints, feedback := c.feedback } :
                  CriterionScoreResult))).map (fun c => c.points)).sum)) })) :=
  ⟨claim_C6.1 tW8 tW8s
      (by
        simp only [preSave, breakdownBad, tW8, tW8s, tPending, List.find?]
        norm_num),
   claim_C6.2.1 tBad
      ⟨{ questionNumber := 1, points := 0, maxPoints := 5, feedback := "f",
         reasoning := none, confidence := "high", flagForReview := false,
         manuallyAdjusted := false,
         criteriaBreakdown := some [{ criterionText := "a", points := 2,
                                      maxPoints := 2, feedback := none }] },
       by simp [tBad, tPending],
       [{ criterionText := "a", points := 2, maxPoints := 2, feedback := none }],
       rfl, by norm_num,
       by
          simp only [List.map_cons, List.map_nil, List.sum_cons, List.sum_nil]
          norm_num⟩,
   (claim_C6.2.2 qC6 "ans" rgW parsedC6 cbRawC6 _ _ _ (by decide) rfl (by decide)
      rfl rfl rfl).1
      (by
        simp only [cbRawC6, parsedC6, qC6, List.map_cons, List.map_nil,
          List.sum_cons, List.sum_nil]
        simp [jsNumOr]
        norm_num)
      (by
        simp only [cbRawC6, List.map_cons, List.map_nil, List.sum_cons,
          List.sum_nil]
        norm_num)⟩

theorem preSave_ok_status (x y : ITestResult) (h : preSave x = .ok y) :
    y.status = x.status := by
  unfold preSave at h
  by_cases hl : 0 < x.scores.length
  · rw [if_pos hl] at h
    cases hf : x.scores.find? breakdownBad with
    | some s => rw [hf] at h; cases h
    | none => rw [hf] at h; cases h; rfl
  · rw [if_neg hl] at h
    cases h
    rfl

theorem preSave_error_status (x : ITestResult) (s msg : String)
    (h : preSave x = .error msg) : preSave { x with status := s } = .error msg := by
  obtain ⟨cn, oi, et, ea, sc, ts, ms, st, rn, rb, ra, em, eat⟩ := x
  unfold preSave at h ⊢
  dsimp only at h ⊢
  by_cases hl : 0 < sc.length
  · rw [if_pos hl] at h ⊢
    cases hf : sc.find? breakdownBad with
    | some s0 =>
        rw [hf] at h
        exact h
    | none =>
        rw [hf] at h
        cases h
  · rw [if_neg hl] at h
    cases h

theorem processRoute_status_ne_error (t : ITestResult) (outcomes : List ImageOutcome)
    (hne : t.status ≠ "error") :
    (processRoute t outcomes).2.status ≠ "error" := by
  unfold processRoute
  by_cases hg : t.status ≠ "pending"
  · rw [if_pos hg]
    exact hne
  · rw [if_neg hg]
    cases hp1 : preSave { t with status := "processing" } with
    | error e1 => exact hne
    | ok t1 =>
        have ht1 : t1.status = "processing" := preSave_ok_status _ _ hp1
        dsimp only
        split
        · rename_i ex hex
          split
          · rename_i t2s hp2
            have h2 : t2s.status = "extracted" := by
              rw [preSave_ok_status _ _ hp2]
            rw [h2]
            decide
          · rename_i e2 hp2
            split
            · rename_i t3 hp3
              have h3 : t3.status = "pending" := by
                rw [preSave_ok_status _ _ hp3]
              rw [h3]
              decide
            · rename_i e3 hp3
              rw [ht1]
              decide
        · rename_i e0 he0
          split
          · rename_i t3 hp3
            have h3 : t3.status = "pending" := by
              rw [preSave_ok_status _ _ hp3]
            rw [h3]
            decide
          · rename_i e3 hp3
            rw [ht1]
            decide

theorem scoreRoute_status_ne_error (t : ITestResult) (schema : Option IScoringSchema)
    (oracle : IQuestion → String → RubricGuidelines → Except String ParsedScore)
    (hne : t.status ≠ "error") :
    (scoreRoute t schema oracle).2.status ≠ "error" := by
  unfold scoreRoute
  by_cases hg : t.status ≠ "extracted"
  · rw [if_pos hg]
    exact hne
  · rw [if_neg hg]
    cases schema with
    | none => exact hne
    | some sch =>
        cases hp1 : preSave { t with status := "processing" } with
        | error e1 => exact hne
        | ok t1 =>
            have ht1 : t1.status = "processing" := preSave_ok_status _ _ hp1
            dsimp only
            split
            · rename_i t2s hp2
              have h2 : t2s.status = "scored" := by
                rw [preSave_ok_status _ _ hp2]
              rw [h2]
              decide
            · rename_i e2 hp2
              split
              · rename_i t3 hp3
                have h3 : t3.status = "extracted" := by
                  rw [preSave_ok_status _ _ hp3]
                rw [h3]
                decide
              · rename_i e3 hp3
                rw [ht1]
                decide

theorem scoreRoute_save_failure (t : ITestResult) (schema : Option IScoringSchema)
    (oracle : IQuestion → String → RubricGuidelines → Except String ParsedScore)
    (sch : IScoringSchema) (t1 : ITestResult) (msg : String)
    (hst : t.status = "extracted") (hs : schema = some sch)
    (h1 : preSave { t with status := "processing" } = .ok t1)
    (h2 : preSave { t1 with
      scores := (scoreAllAnswersParallel sch.questions t1.extractedAnswers
        sch.rubricGuidelines oracle 2).map (fun s =>
          ({ questionNumber := s.questionNumber, points := s.points,
             maxPoints := s.maxPoints, feedback := s.feedback,
             reasoning := some s.reasoning, confidence := s.confidence,
             flagForReview := s.flagForReview, manuallyAdjusted := false,
             criteriaBreakdown := s.criteriaBreakdown } : IQuestionScore))
      status := "scored" } = .error msg) :
    scoreRoute t schema oracle = (.err 500 "Failed to score test", t1)
    ∧ t1.status = "processing" := by
  have hrev := preSave_error_status _ "extracted" msg h2
  refine ⟨?_, by rw [preSave_ok_status _ _ h1]⟩
  unfold scoreRoute
  rw [if_neg (by simp [hst])]
  cases schema with
  | none => cases hs
  | some sch2 =>
      have hsch : sch2 = sch := by
        injection hs with h
      subst hsch
      cases hp1 : preSave { t with status := "processing" } with
      | error e1 =>
          rw [hp1] at h1
          cases h1
      | ok t1b =>
          rw [hp1] at h1
          cases h1
          dsimp only
          split
          · rename_i t2s hp2
            have hcontr := h2.symm.trans hp2
            cases hcontr
          · rename_i e2 hp2
            split
            · rename_i t3 hp3
              have hcontr := hrev.symm.trans hp3
              cases hcontr
            · rfl

theorem scoreAnswerZ_breakdown :
    (scoreAnswer qZ "" rgW (.ok parsedZ)).criteriaBreakdown =
      some [{ criterionText := "c1", points := 0, maxPoints := 5,
              feedback := none },
            { criterionText := "c2", points := 0, maxPoints := 5,
              feedback := none }] := by
  rw [scoreAnswer_breakdown_of_some qZ "" rgW parsedZ
    [{ criterionText := "c1", points := 0, maxPoints := 5, feedback := none },
     { criterionText := "c2", points := 0, maxPoints := 5, feedback := none }] rfl]
  rw [if_pos ⟨by decide, by decide⟩]
  simp only [List.map_cons, List.map_nil, List.sum_cons, List.sum_nil, qZ, parsedZ]
  rw [if_pos (by simp [jsNumOr]; norm_num)]
  rw [if_neg (by norm_num)]
  norm_num

theorem scoreAnswerZ_points : (scoreAnswer qZ "" rgW (.ok parsedZ)).points = 1 := by
  have h : (scoreAnswer qZ "" rgW (.ok parsedZ)).points =
      max 0 (min (jsNumOr parsedZ.points 0) qZ.maxPoints) := rfl
  rw [h]
  simp only [parsedZ, qZ, jsNumOr]
  norm_num

theorem preSaveZ_error : preSave { tProcessingZ with
    scores := (scoreAllAnswersParallel schZ.questions tProcessingZ.extractedAnswers
      schZ.rubricGuidelines oZ 2).map (fun s =>
        ({ questionNumber := s.questionNumber, points := s.points,
           maxPoints := s.maxPoints, feedback := s.feedback,
           reasoning := some s.reasoning, confidence := s.confidence,
           flagForReview := s.flagForReview, manuallyAdjusted := false,
           criteriaBreakdown := s.criteriaBreakdown } : IQuestionScore))
    status := "scored" } = .error msgZ := by
  rw [show scoreAllAnswersParallel schZ.questions tProcessingZ.extractedAnswers
      schZ.rubricGuidelines oZ 2 = [scoreAnswer qZ "" rgW (.ok parsedZ)] from rfl]
  simp only [List.map_cons, List.map_nil]
  unfold preSave
  dsimp only
  rw [if_pos (by norm_num)]
  rw [List.find?_cons_of_pos _ (by
    rw [breakdownBad_of_some _
      [{ criterionText := "c1", points := 0, maxPoints := 5, feedback := none },
       { criterionText := "c2", points := 0, maxPoints := 5, feedback := none }]
      (by
        dsimp only
        exact scoreAnswerZ_breakdown)]
    dsimp only
    rw [scoreAnswerZ_points]
    simp only [List.map_cons, List.map_nil, List.sum_cons, List.sum_nil]
    norm_num)]
  dsimp only
  rw [show (scoreAnswer qZ "" rgW (.ok parsedZ)).questionNumber = 1 from rfl]
  rfl

theorem claim_C2_counterexample :
    (processRoute tPending [ImageOutcome.apiError "API down"]).2.status = "pending"
    ∧ (processRoute tPending [ImageOutcome.apiError "API down"]).2.status ≠ "error"
    ∧ "error" ∉ statusEnum :=
  ⟨by decide, by decide, by decide⟩

/-- C2 (amended): in the background flow a processing or scoring failure
sets the submission's status to error through a direct update carrying the
captured message and timestamp, without reverting to the prior state. The
synchronous routes never persist an error status: the process route reverts
a failed extraction to the prior pending state, and in the score route the
only post-scoring failure is a save rejected by validation, whose catch
re-saves the same document with status extracted and is rejected by the same
validation, leaving the previously saved processing status. And error is not
a member of the status enum declared on the TestResult schema (the
background update bypasses enum validation). -/
theorem claim_C2_amended :
    (∀ (t : ITestResult) (outcomes : List ImageOutcome) (now : Nat) (e : String),
      extractTextFromMultipleImages none outcomes = .error e →
      (processTestInBackground t outcomes now).status = "error"
      ∧ (processTestInBackground t outcomes now).errorMessage = some e
      ∧ (processTestInBackground t outcomes now).errorAt = some now)
    ∧ (∀ (t : ITestResult)
        (oracle : IQuestion → String → RubricGuidelines → Except String ParsedScore)
        (now : Nat),
      (scoreTestInBackground t none oracle now).status = "error"
      ∧ (scoreTestInBackground t none oracle now).errorMessage =
          some "Schema not found for this test"
      ∧ (scoreTestInBackground t none oracle now).errorAt = some now)
    ∧ (∀ (t : ITestResult) (outcomes : List ImageOutcome) (e : String),
      t.status = "pending" → t.scores = [] →
      extractTextFromMultipleImages none outcomes = .error e →
      (processRoute t outcomes).1 = .err 500 "Failed to process test"
      ∧ (processRoute t outcomes).2 = t)
    ∧ (∀ (t : ITestResult) (outcomes : List ImageOutcome),
      t.status ≠ "error" → (processRoute t outcomes).2.status ≠ "error")
    ∧ (∀ (t : ITestResult) (schema : Option IScoringSchema)
        (oracle : IQuestion → String → RubricGuidelines → Except String ParsedScore),
      t.status ≠ "error" → (scoreRoute t schema oracle).2.status ≠ "error")
    ∧ (∀ (t : ITestResult) (schema : Option IScoringSchema)
        (oracle : IQuestion → String → RubricGuidelines → Except String ParsedScore)
        (sch : IScoringSchema) (t1 : ITestResult) (msg : String),
      t.status = "extracted" → schema = some sch →
      preSave { t with status := "processing" } = .ok t1 →
      preSave { t1 with
        scores := (scoreAllAnswersParallel sch.questions t1.extractedAnswers
          sch.rubricGuidelines oracle 2).map (fun s =>
            ({ questionNumber := s.questionNumber, points := s.points,
               maxPoints := s.maxPoints, feedback := s.feedback,
               reasoning := some s.reasoning, confidence := s.confidence,
               flagForReview := s.flagForReview, manuallyAdjusted := false,
               criteriaBreakdown := s.criteriaBreakdown } : IQuestionScore))
        status := "scored" } = .error msg →
      scoreRoute t schema oracle = (.err 500 "Failed to score test", t1)
      ∧ t1.status = "processing")
    ∧ "error" ∉ statusEnum := by
  refine ⟨?_, ?_, ?_, ?_, ?_, ?_, by decide⟩
  · intro t outcomes now e he
    have hu : processTestInBackground t outcomes now = errorUpdate t e now := by
      unfold processTestInBackground
      rw [he]
    rw [hu]
    exact ⟨rfl, rfl, rfl⟩
  · intro t oracle now
    exact ⟨rfl, rfl, rfl⟩
  · intro t outcomes e hst hsc he
    obtain ⟨cn, oi, et, ea, sc, ts, ms, st, rn, rb, ra, em, eat⟩ := t
    simp only at hst hsc
    subst hst
    subst hsc
    simp only [processRoute, preSave, he]
    constructor <;> rfl
  · intro t outcomes hne
    exact processRoute_status_ne_error t outcomes hne
  · intro t schema oracle hne
    exact scoreRoute_status_ne_error t schema oracle hne
  · intro t schema oracle sch t1 msg hst hs h1 h2
    exact scoreRoute_save_failure t schema oracle sch t1 msg hst hs h1 h2

theorem claim_C2_witness :
    ((processTestInBackground tPending [ImageOutcome.apiError "boom"] 7).status =
        "error"
      ∧ (processTestInBackground tPending [ImageOutcome.apiError "boom"] 7).errorMessage =
          some "boom"
      ∧ (processTestInBackground tPending [ImageOutcome.apiError "boom"] 7).errorAt =
          some 7)
    ∧ ((scoreTestInBackground tPending none oW2 7).status = "error"
      ∧ (scoreTestInBackground tPending none oW2 7).errorMessage =
          some "Schema not found for this test"
      ∧ (scoreTestInBackground tPending none oW2 7).errorAt = some 7)
    ∧ ((processRoute tPending [ImageOutcome.apiError "boom"]).1 =
          .err 500 "Failed to process test"
      ∧ (processRoute tPending [ImageOutcome.apiError "boom"]).2 = tPending)
    ∧ (processRoute tPending []).2.status ≠ "error"
    ∧ (scoreRoute tScored none oW2).2.status ≠ "error"
    ∧ (scoreRoute tExtracted (some schZ) oZ =
          (.err 500 "Failed to score test", tProcessingZ)
      ∧ tProcessingZ.status = "processing")
    ∧ "error" ∉ statusEnum :=
  ⟨claim_C2_amended.1 tPending [ImageOutcome.apiError "boom"] 7 "boom" rfl,
   claim_C2_amended.2.1 tPending oW2 7,
   claim_C2_amended.2.2.1 tPending [ImageOutcome.apiError "boom"] "boom" rfl rfl rfl,
   claim_C2_amended.2.2.2.1 tPending [] (by decide),
   claim_C2_amended.2.2.2.2.1 tScored none oW2 (by decide),
   claim_C2_amended.2.2.2.2.2.1 tExtracted (some schZ) oZ schZ tProcessingZ msgZ
     rfl rfl rfl preSaveZ_error,
   claim_C2_amended.2.2.2.2.2.2⟩

theorem claim_C7_counterexample :
    (processRoute tPending [imgW7]).2.extractedAnswers.map
        (fun a => a.questionNumber) = [1, 3]
    ∧ ¬ (2 ∈ (processRoute tPending [imgW7]).2.extractedAnswers.map
        (fun a => a.questionNumber)) :=
  ⟨by decide, by decide⟩

set_option maxHeartbeats 1000000 in
/-- C7 (amended): for a schema with question numbers 1, 2 and 3, if
per-image extraction yields answers only for 1 and 3, then
extractTextFromMultipleImages backfills question 2 with an empty answer
only when the schema's question list is passed to it; the process route
calls extraction without the schema list, so the stored extractedAnswers
contain exactly questions 1 and 3. -/
theorem claim_C7_amended :
    extractTextFromMultipleImages (some sq123)
        [ImageOutcome.parsed (content13 "ans1" "ans3")] =
      .ok { rawText := "raw",
            questions := [{ questionNumber := 1, studentAnswer := "ans1" },
                          { questionNumber := 2, studentAnswer := "" },
                          { questionNumber := 3, studentAnswer := "ans3" }] }
    ∧ (∀ t : ITestResult, t.status = "pending" → t.scores = [] →
      (processRoute t [ImageOutcome.parsed (content13 "ans1" "ans3")]).2.extractedAnswers =
        [{ questionNumber := 1, studentAnswer := "ans1" },
         { questionNumber := 3, studentAnswer := "ans3" }]) := by
  constructor
  · rfl
  · intro t hst hsc
    obtain ⟨cn, oi, et, ea, sc, ts, ms, st, rn, rb, ra, em, eat⟩ := t
    simp only at hst hsc
    subst hst
    subst hsc
    rfl

theorem claim_C7_witness :
    extractTextFromMultipleImages (some sq123)
        [ImageOutcome.parsed (content13 "ans1" "ans3")] =
      .ok { rawText := "raw",
            questions := [{ questionNumber := 1, studentAnswer := "ans1" },
                          { questionNumber := 2, studentAnswer := "" },
                          { questionNumber := 3, studentAnswer := "ans3" }] }
    ∧ (processRoute tPending
        [ImageOutcome.parsed (content13 "ans1" "ans3")]).2.extractedAnswers =
        [{ questionNumber := 1, studentAnswer := "ans1" },
         { questionNumber := 3, studentAnswer := "ans3" }] :=
  ⟨claim_C7_amended.1, claim_C7_amended.2 tPending rfl rfl⟩
